import Mathlib

/-!
Shallow embedding of the three Python build scripts of this repository:
  src/nbody-c/make.py, src/nbody-rs/src/make.py, src/lrtdw/make.py.

Each script is modelled as a pure function from its inputs — sys.platform,
the directory of the script file (os.path.dirname(os.path.realpath(__file__))),
the command-line arguments after the script name (sys.argv[1:]), and an
oracle giving the status that os.system would return for each shell command
string — to the observable effect of one invocation: the list of shell
command strings passed to os.system, in order, and the exit code of the
Python process itself.  All three scripts discard the value returned by
os.system, so the oracle never influences the result; it is a parameter so
that the relation between the invoked command status and the script exit
code can be stated.
-/

/-- Path separator used by os.path.join, chosen by the operating system
family (backslash on Windows, slash elsewhere). -/
def pathSep (inWindows : Bool) : String := if inWindows then "\\" else "/"

/-- Model of a two-component os.path.join call. -/
def pathJoin (inWindows : Bool) (a b : String) : String :=
  a ++ pathSep inWindows ++ b

/-- Model of the Python expression given by joining a list of strings with
a single space between consecutive elements. -/
def joinSpace : List String → String
  | [] => ""
  | [x] => x
  | x :: y :: xs => x ++ " " ++ joinSpace (y :: xs)

/-- Observable effect of one script invocation: the shell command strings
passed to os.system, in order, and the exit code of the Python process. -/
structure Run where
  commands : List String
  exitCode : Nat
deriving DecidableEq

namespace nbodyC

/-- Platform-conditional executable suffix of src/nbody-c/make.py, line 12. -/
def ext (inWindows : Bool) : String := if inWindows then ".exe" else ""

/-- Source path of src/nbody-c/make.py, line 10. -/
def src (inWindows : Bool) (dirPath : String) : String :=
  pathJoin inWindows dirPath "nbody.c"

/-- Output path stem of src/nbody-c/make.py, line 11. -/
def exe (inWindows : Bool) (dirPath : String) : String :=
  pathJoin inWindows dirPath "nbody-c"

/-- The GCC_ARGS list of src/nbody-c/make.py, lines 14 to 25. -/
def GCC_ARGS (inWindows : Bool) (dirPath : String) : List String :=
  ["-O3", "-Wall", "-fomit-frame-pointer", "-march=native", "-funroll-loops",
   "-static", src inWindows dirPath, "-o",
   exe inWindows dirPath ++ ext inWindows, "-lm"]

/-- The main dispatch of src/nbody-c/make.py, lines 27 to 36.  The value
returned by each os.system call is discarded by the script, so the oracle
argument is unused and the process always exits with code 0. -/
def run (platform dirPath : String) (args : List String)
    (_sysExit : String → Nat) : Run :=
  let inWindows := platform == "win32"
  match args with
  | [] =>
      { commands := [joinSpace ("gcc" :: GCC_ARGS inWindows dirPath)]
        exitCode := 0 }
  | a1 :: _ =>
      if a1 == "time" && !inWindows then
        { commands := [joinSpace ("time" :: "gcc" :: GCC_ARGS inWindows dirPath)]
          exitCode := 0 }
      else if a1 == "clean" then
        { commands := ["rm " ++ (exe inWindows dirPath ++ ext inWindows)]
          exitCode := 0 }
      else
        { commands := [], exitCode := 0 }

end nbodyC

namespace nbodyRs

/-- Platform-conditional executable suffix of src/nbody-rs/src/make.py, line 11. -/
def ext (inWindows : Bool) : String := if inWindows then ".exe" else ""

/-- Source path of src/nbody-rs/src/make.py, line 9. -/
def src (inWindows : Bool) (dirPath : String) : String :=
  pathJoin inWindows dirPath "nbody.rs"

/-- Output path stem of src/nbody-rs/src/make.py, line 10. -/
def exe (inWindows : Bool) (dirPath : String) : String :=
  pathJoin inWindows dirPath "nbody-rs"

/-- The RUSTC_ARGS list of src/nbody-rs/src/make.py, lines 13 to 23. -/
def RUSTC_ARGS (inWindows : Bool) (dirPath : String) : List String :=
  ["-C", "opt-level=3", "-C", "target-cpu=native", "-C", "codegen-units=1",
   src inWindows dirPath, "-o", exe inWindows dirPath ++ ext inWindows]

/-- The main dispatch of src/nbody-rs/src/make.py, lines 25 to 33.  As in
the C variant, the os.system return value is discarded and the process
always exits with code 0. -/
def run (platform dirPath : String) (args : List String)
    (_sysExit : String → Nat) : Run :=
  let inWindows := platform == "win32"
  match args with
  | [] =>
      { commands := [joinSpace ("rustc" :: RUSTC_ARGS inWindows dirPath)]
        exitCode := 0 }
  | a1 :: _ =>
      if a1 == "time" && !inWindows then
        { commands := [joinSpace ("time" :: "rustc" :: RUSTC_ARGS inWindows dirPath)]
          exitCode := 0 }
      else if a1 == "clean" then
        { commands := ["rm " ++ (exe inWindows dirPath ++ ext inWindows) ++ " "
                       ++ exe inWindows dirPath ++ ".pdb"]
          exitCode := 0 }
      else
        { commands := [], exitCode := 0 }

end nbodyRs

namespace lrtdw

/-- Model of the Python test of whether a string starts with a given
prefix, stated on the character lists of the strings. -/
def strStartsWith (pre t : String) : Bool := pre.data.isPrefixOf t.data

/-- Result of argument parsing in src/lrtdw/make.py, lines 40 to 45: an
optional positional rule restricted to clean or time, and two independent
boolean flags. -/
structure Args where
  rule : Option String
  c_only : Bool
  rust_only : Bool
deriving DecidableEq

/-- Model of the configured ArgumentParser of src/lrtdw/make.py, lines 40
to 45, processing tokens left to right: the exact option strings declared
there set the corresponding flag; any other token starting with a dash is
unrecognized; the first plain token is the positional rule and must be one
of the two declared choices; a second plain token is surplus.  On any of
these violations the parser reports a usage error and the process exits
with code 2.  Option-string abbreviation is not modelled; no claim
depends on it. -/
def parseArgsAux : List String → Option String → Bool → Bool → Except Nat Args
  | [], rule, c, r => .ok { rule := rule, c_only := c, rust_only := r }
  | t :: ts, rule, c, r =>
      if t == "--c_only" || t == "-c" then
        parseArgsAux ts rule true r
      else if t == "--rust_only" || t == "-rs" || t == "-rust" then
        parseArgsAux ts rule c true
      else if strStartsWith "-" t then
        .error 2
      else
        match rule with
        | none =>
            if t == "clean" || t == "time" then parseArgsAux ts (some t) c r
            else .error 2
        | some _ => .error 2

/-- Parse a full argument list with the initial parser state. -/
def parseArgs (args : List String) : Except Nat Args :=
  parseArgsAux args none false false

/-- Platform-conditional executable suffix of src/lrtdw/make.py, line 17. -/
def ext (inWindows : Bool) : String := if inWindows then ".exe" else ""

/-- Subdirectory for the C toolchain, src/lrtdw/make.py, line 14. -/
def subdirC : String := "nbody-c"

/-- Subdirectory for the Rust toolchain, src/lrtdw/make.py, line 14. -/
def subdirRust (inWindows : Bool) : String :=
  pathJoin inWindows "nbody-rs" "src"

/-- C source path, src/lrtdw/make.py, line 15. -/
def srcC (inWindows : Bool) (dirPath : String) : String :=
  pathJoin inWindows (pathJoin inWindows dirPath subdirC) "main.c"

/-- Rust source path, src/lrtdw/make.py, line 15. -/
def srcRust (inWindows : Bool) (dirPath : String) : String :=
  pathJoin inWindows (pathJoin inWindows dirPath (subdirRust inWindows)) "main.rs"

/-- C output path stem, src/lrtdw/make.py, line 16. -/
def exeC (inWindows : Bool) (dirPath : String) : String :=
  pathJoin inWindows (pathJoin inWindows dirPath subdirC) "nbody-c"

/-- Rust output path stem, src/lrtdw/make.py, line 16. -/
def exeRust (inWindows : Bool) (dirPath : String) : String :=
  pathJoin inWindows (pathJoin inWindows dirPath (subdirRust inWindows)) "nbody-rs"

/-- The C entry of the compile_ table, src/lrtdw/make.py, lines 20 to 29. -/
def compileC (inWindows : Bool) (dirPath : String) : List String :=
  ["gcc", "-O3", "-fomit-frame-pointer", "-march=native", "-funroll-loops",
   "-static", srcC inWindows dirPath, "-o",
   exeC inWindows dirPath ++ ext inWindows, "-lm"]

/-- The Rust entry of the compile_ table, src/lrtdw/make.py, lines 30 to 36. -/
def compileRust (inWindows : Bool) (dirPath : String) : List String :=
  ["rustc", "-C", "opt-level=3", "-C", "target-cpu=native", "-C",
   "codegen-units=1", srcRust inWindows dirPath, "-o",
   exeRust inWindows dirPath ++ ext inWindows]

/-- The rule dispatch of src/lrtdw/make.py, lines 47 to 60, given parsed
arguments.  On Windows the time rule only prints a message, which issues
no shell command. -/
def dispatch (inWindows : Bool) (dirPath : String) (a : Args) : List String :=
  if a.rule == some "clean" then
    (if !a.rust_only then ["rm " ++ (exeC inWindows dirPath ++ ext inWindows)]
     else []) ++
    (if !a.c_only then
      ["rm " ++ (exeRust inWindows dirPath ++ ext inWindows) ++ " "
       ++ exeRust inWindows dirPath ++ ".pdb"]
     else [])
  else if a.rule == some "time" then
    if inWindows then []
    else
      (if !a.rust_only then [joinSpace ("time" :: compileC inWindows dirPath)]
       else []) ++
      (if !a.c_only then [joinSpace ("time" :: compileRust inWindows dirPath)]
       else [])
  else
    (if !a.rust_only then [joinSpace (compileC inWindows dirPath)] else []) ++
    (if !a.c_only then [joinSpace (compileRust inWindows dirPath)] else [])

/-- The whole script src/lrtdw/make.py: parse the arguments, exiting with
the parser error code when parsing fails, and otherwise dispatch on the
rule.  The os.system return value is discarded, so a successful parse
always ends with exit code 0. -/
def run (platform dirPath : String) (args : List String)
    (_sysExit : String → Nat) : Run :=
  let inWindows := platform == "win32"
  match parseArgs args with
  | .error code => { commands := [], exitCode := code }
  | .ok a => { commands := dispatch inWindows dirPath a, exitCode := 0 }

end lrtdw

/-! Helper lemmas shared by several claim theorems. -/

/-- The argument parser of the lrtdw script only fails with exit code 2. -/
theorem lrtdw.parseArgsAux_error_code :
    ∀ (l : List String) (rule : Option String) (c r : Bool) (k : Nat),
      lrtdw.parseArgsAux l rule c r = .error k → k = 2 := by
  intro l
  induction l with
  | nil =>
      intro rule c r k h
      simp [lrtdw.parseArgsAux] at h
  | cons t ts ih =>
      intro rule c r k h
      simp only [lrtdw.parseArgsAux] at h
      split at h
      · exact ih _ _ _ _ h
      · split at h
        · exact ih _ _ _ _ h
        · split at h
          · injection h with h2
            omega
          · split at h
            · split at h
              · exact ih _ _ _ _ h
              · injection h with h2
                omega
            · injection h with h2
              omega

/-- Prepending a timing token to a nonempty word list before joining is
the same as prepending the timing token plus a space to the joined string. -/
theorem joinSpace_time_cons (x : String) (l : List String) :
    joinSpace ("time" :: x :: l) = "time " ++ joinSpace (x :: l) := by
  rfl

/-- Two string concatenations differ when their right parts are nonempty
and end in different characters. -/
theorem append_ne_append_of_last_ne (x y u v : String)
    (hy : y.data ≠ []) (hv : v.data ≠ [])
    (hne : y.data.getLast? ≠ v.data.getLast?) :
    x ++ y ≠ u ++ v := by
  intro h
  have hd : (x ++ y).data = (u ++ v).data := by rw [h]
  rw [String.data_append, String.data_append] at hd
  apply hne
  rw [← List.getLast?_append_of_ne_nil x.data hy, hd,
    List.getLast?_append_of_ne_nil u.data hv]

/-- A string has the Windows executable suffix when it splits as some
prefix followed by the four characters of that suffix. -/
def hasExeSuffix (s : String) : Prop := ∃ b, s = b ++ ".exe"

/-- A concatenation ending in a nonempty word whose final character is not
the final character of the executable suffix does not carry that suffix. -/
theorem not_hasExeSuffix_append (x name : String) (h1 : name.data ≠ [])
    (h2 : name.data.getLast? ≠ (".exe" : String).data.getLast?) :
    ¬ hasExeSuffix (x ++ name) := by
  rintro ⟨b, hb⟩
  exact append_ne_append_of_last_ne x name b ".exe" h1 (by decide) h2 hb

/-! Claim theorems. -/

/-- C1, counterexample: the claim that the script exit code equals the exit
code returned by the invoked shell command fails.  With no arguments on a
non-Windows platform the C variant issues exactly one gcc command, and even
when that command returns status 1 the script exits with code 0, because the
os.system return value is discarded. -/
theorem C1_counterexample :
    ¬ (∀ (sysExit : String → Nat) (cmd : String),
        (nbodyC.run "linux" "/repo" [] sysExit).commands = [cmd] →
        (nbodyC.run "linux" "/repo" [] sysExit).exitCode = sysExit cmd) := by
  intro h
  have h1 := h (fun _ => 1)
    (joinSpace ("gcc" :: nbodyC.GCC_ARGS ("linux" == "win32") "/repo")) rfl
  simp [nbodyC.run] at h1

/-- C1, amended: the invoked command exit status never propagates.  The two
single-toolchain scripts always exit with code 0, and the combined script
exits with code 0 when its arguments parse and with the argparse usage-error
code 2 otherwise, independently of the status any invoked command returns. -/
theorem C1_exit_code_ignored (p d : String) (args : List String)
    (sysExit : String → Nat) :
    (nbodyC.run p d args sysExit).exitCode = 0 ∧
    (nbodyRs.run p d args sysExit).exitCode = 0 ∧
    ((lrtdw.run p d args sysExit).exitCode = 0 ∨
     (lrtdw.run p d args sysExit).exitCode = 2) := by
  refine ⟨?_, ?_, ?_⟩
  · cases args with
    | nil => rfl
    | cons a rest =>
        unfold nbodyC.run
        dsimp only
        split
        · rfl
        · split <;> rfl
  · cases args with
    | nil => rfl
    | cons a rest =>
        unfold nbodyRs.run
        dsimp only
        split
        · rfl
        · split <;> rfl
  · unfold lrtdw.run
    cases hp : lrtdw.parseArgs args with
    | error k =>
        right
        simp only [hp]
        exact lrtdw.parseArgsAux_error_code args none false false k hp
    | ok a =>
        left
        simp only [hp]

/-- C2, counterexample: the claim that every invocation of every variant
spawns exactly one subprocess fails: the combined lrtdw script invoked with
no arguments issues two shell commands, one gcc and one rustc compile. -/
theorem C2_counterexample :
    (lrtdw.run "linux" "/repo" [] (fun _ => 0)).commands.length = 2 ∧
    (lrtdw.run "linux" "/repo" [] (fun _ => 0)).commands.length ≠ 1 := by
  refine ⟨rfl, ?_⟩
  intro h
  have h2 : (lrtdw.run "linux" "/repo" [] (fun _ => 0)).commands.length = 2 := rfl
  omega

/-- C2, amended: each invocation of the two single-toolchain scripts passes
at most one command string to os.system, and each invocation of the combined
lrtdw script passes at most two; every call is the blocking os.system, so
each spawned subprocess completes before the script exits. -/
theorem C2_subprocess_count (p d : String) (args : List String)
    (sysExit : String → Nat) :
    (nbodyC.run p d args sysExit).commands.length ≤ 1 ∧
    (nbodyRs.run p d args sysExit).commands.length ≤ 1 ∧
    (lrtdw.run p d args sysExit).commands.length ≤ 2 := by
  refine ⟨?_, ?_, ?_⟩
  · cases args with
    | nil => simp [nbodyC.run]
    | cons a rest =>
        unfold nbodyC.run
        dsimp only
        split
        · simp
        · split <;> simp
  · cases args with
    | nil => simp [nbodyRs.run]
    | cons a rest =>
        unfold nbodyRs.run
        dsimp only
        split
        · simp
        · split <;> simp
  · unfold lrtdw.run
    cases hp : lrtdw.parseArgs args with
    | error k => simp [hp]
    | ok a =>
        simp only [hp]
        unfold lrtdw.dispatch
        split_ifs <;> simp

/-- C3, counterexample: the claim that the two restriction flags are
mutually exclusive fails: an invocation passing both is accepted by the
parser, which returns both flags set, and the script exits with code 0
rather than rejecting the combination. -/
theorem C3_counterexample :
    lrtdw.parseArgs ["--c_only", "--rust_only"]
      = .ok { rule := none, c_only := true, rust_only := true } ∧
    (lrtdw.run "linux" "/repo" ["--c_only", "--rust_only"]
      (fun _ => 0)).exitCode = 0 :=
  ⟨rfl, rfl⟩

/-- C3, amended: the flags are declared as two independent store-true
options, not as a mutually exclusive group, so supplying both together with
any of the three rules is accepted and the script exits with code 0 (each
action is then skipped, see the C9 theorem). -/
theorem C3_both_flags_accepted (p d : String) (sysExit : String → Nat)
    (r : List String) (h : r = [] ∨ r = ["clean"] ∨ r = ["time"]) :
    (lrtdw.run p d (r ++ ["--c_only", "--rust_only"]) sysExit).exitCode = 0 := by
  rcases h with h | h | h <;> subst h <;> rfl

/-- C3, witness for the amended theorem at the clean rule. -/
theorem C3_both_flags_accepted_witness :
    (lrtdw.run "linux" "/repo" (["clean"] ++ ["--c_only", "--rust_only"])
      (fun _ => 0)).exitCode = 0 :=
  C3_both_flags_accepted "linux" "/repo" (fun _ => 0) ["clean"]
    (Or.inr (Or.inl rfl))

/-- A string carries the debug-symbol file suffix when it splits as some
prefix followed by the four characters of that suffix. -/
def hasPdbSuffix (s : String) : Prop := ∃ b, s = b ++ ".pdb"

/-- C4, counterexample: the claim that exactly one variant additionally
removes a debug-symbol side file fails: the clean rule of the Rust variant
and the clean rule of the combined lrtdw variant each issue a removal
command naming a pdb path, while the C variant issues none. -/
theorem C4_counterexample :
    (∃ x ∈ (nbodyRs.run "linux" "/repo" ["clean"] (fun _ => 0)).commands,
      hasPdbSuffix x) ∧
    (∃ x ∈ (lrtdw.run "linux" "/repo" ["clean"] (fun _ => 0)).commands,
      hasPdbSuffix x) ∧
    ¬ (∃ x ∈ (nbodyC.run "linux" "/repo" ["clean"] (fun _ => 0)).commands,
      hasPdbSuffix x) := by
  refine ⟨⟨"rm /repo/nbody-rs /repo/nbody-rs.pdb", by decide,
      "rm /repo/nbody-rs /repo/nbody-rs", rfl⟩,
    ⟨"rm /repo/nbody-rs/src/nbody-rs /repo/nbody-rs/src/nbody-rs.pdb", by decide,
      "rm /repo/nbody-rs/src/nbody-rs /repo/nbody-rs/src/nbody-rs", rfl⟩, ?_⟩
  rintro ⟨x, hx, b, hb⟩
  have hx2 : x ∈ ["rm /repo/nbody-c"] := hx
  rw [List.mem_singleton] at hx2
  subst hx2
  have hne := append_ne_append_of_last_ne "rm /repo/" "nbody-c" b ".pdb"
    (by decide) (by decide) (by decide)
  exact hne hb

/-- C4, amended: the clean rule of each variant issues exactly the removal
commands below: every variant removes its produced executable path
(output stem plus platform suffix), and two of the three variants, the
Rust one and the combined lrtdw one, additionally remove the pdb
debug-symbol file next to the Rust executable, while the C variant
removes no pdb file. -/
theorem C4_clean_actions (p d : String) (sysExit : String → Nat) :
    (nbodyC.run p d ["clean"] sysExit).commands
      = ["rm " ++ (nbodyC.exe (p == "win32") d ++ nbodyC.ext (p == "win32"))] ∧
    (nbodyRs.run p d ["clean"] sysExit).commands
      = ["rm " ++ (nbodyRs.exe (p == "win32") d ++ nbodyRs.ext (p == "win32"))
          ++ " " ++ nbodyRs.exe (p == "win32") d ++ ".pdb"] ∧
    (lrtdw.run p d ["clean"] sysExit).commands
      = ["rm " ++ (lrtdw.exeC (p == "win32") d ++ lrtdw.ext (p == "win32")),
         "rm " ++ (lrtdw.exeRust (p == "win32") d ++ lrtdw.ext (p == "win32"))
          ++ " " ++ lrtdw.exeRust (p == "win32") d ++ ".pdb"] ∧
    (∀ x ∈ (nbodyC.run p d ["clean"] sysExit).commands, ¬ hasPdbSuffix x) ∧
    (∃ x ∈ (nbodyRs.run p d ["clean"] sysExit).commands, hasPdbSuffix x) ∧
    (∃ x ∈ (lrtdw.run p d ["clean"] sysExit).commands, hasPdbSuffix x) := by
  refine ⟨rfl, rfl, rfl, ?_, ?_, ?_⟩
  · intro x hx
    rw [show (nbodyC.run p d ["clean"] sysExit).commands
        = ["rm " ++ (nbodyC.exe (p == "win32") d ++ nbodyC.ext (p == "win32"))]
      from rfl, List.mem_singleton] at hx
    subst hx
    rintro ⟨b, hb⟩
    cases hw : (p == "win32") with
    | false =>
        rw [hw, show nbodyC.ext false = "" from rfl, String.append_empty,
          show nbodyC.exe false d = (d ++ pathSep false) ++ "nbody-c" from rfl,
          ← String.append_assoc] at hb
        exact append_ne_append_of_last_ne _ "nbody-c" b ".pdb"
          (by decide) (by decide) (by decide) hb
    | true =>
        rw [hw, show nbodyC.ext true = ".exe" from rfl,
          ← String.append_assoc] at hb
        exact append_ne_append_of_last_ne _ ".exe" b ".pdb"
          (by decide) (by decide) (by decide) hb
  · exact ⟨_, List.mem_singleton.mpr rfl,
      ⟨"rm " ++ (nbodyRs.exe (p == "win32") d ++ nbodyRs.ext (p == "win32"))
        ++ " " ++ nbodyRs.exe (p == "win32") d, rfl⟩⟩
  · refine ⟨"rm " ++ (lrtdw.exeRust (p == "win32") d ++ lrtdw.ext (p == "win32"))
        ++ " " ++ lrtdw.exeRust (p == "win32") d ++ ".pdb", ?_, ?_⟩
    · show _ ∈ [_, _]
      exact List.mem_cons_of_mem _ (List.mem_singleton.mpr rfl)
    · exact ⟨"rm " ++ (lrtdw.exeRust (p == "win32") d ++ lrtdw.ext (p == "win32"))
        ++ " " ++ lrtdw.exeRust (p == "win32") d, rfl⟩

/-- C5, confirmed: on a non-Windows platform the time rule of every variant
issues exactly the compile commands of the no-argument invocation with the
timing wrapper prepended and nothing else changed, and on Windows the time
rule issues no command at all. -/
theorem C5_time_rule (p d : String) (sysExit : String → Nat) :
    (p ≠ "win32" →
      ((nbodyC.run p d ["time"] sysExit).commands
        = (nbodyC.run p d [] sysExit).commands.map (fun c => "time " ++ c)) ∧
      ((nbodyRs.run p d ["time"] sysExit).commands
        = (nbodyRs.run p d [] sysExit).commands.map (fun c => "time " ++ c)) ∧
      ((lrtdw.run p d ["time"] sysExit).commands
        = (lrtdw.run p d [] sysExit).commands.map (fun c => "time " ++ c))) ∧
    (p = "win32" →
      (nbodyC.run p d ["time"] sysExit).commands = [] ∧
      (nbodyRs.run p d ["time"] sysExit).commands = [] ∧
      (lrtdw.run p d ["time"] sysExit).commands = []) := by
  constructor
  · intro hp
    have hb : (p == "win32") = false := beq_eq_false_iff_ne.mpr hp
    have hpt : lrtdw.parseArgs ["time"] = .ok ⟨some "time", false, false⟩ := rfl
    have hp0 : lrtdw.parseArgs [] = .ok ⟨none, false, false⟩ := rfl
    refine ⟨?_, ?_, ?_⟩
    · simp [nbodyC.run, hb, joinSpace_time_cons]
    · simp [nbodyRs.run, hb, joinSpace_time_cons]
    · simp only [lrtdw.run, hpt, hp0, lrtdw.dispatch, hb]
      simp [lrtdw.compileC, lrtdw.compileRust, joinSpace_time_cons]
  · intro hp
    subst hp
    exact ⟨rfl, rfl, rfl⟩

/-- C5, witness: instances of the theorem on a posix platform and on the
Windows platform. -/
theorem C5_time_rule_witness :
    ((nbodyC.run "linux" "/repo" ["time"] (fun _ => 0)).commands
      = (nbodyC.run "linux" "/repo" [] (fun _ => 0)).commands.map
          (fun c => "time " ++ c)) ∧
    (nbodyC.run "win32" "/repo" ["time"] (fun _ => 0)).commands = [] :=
  ⟨((C5_time_rule "linux" "/repo" (fun _ => 0)).1 (by decide)).1,
   ((C5_time_rule "win32" "/repo" (fun _ => 0)).2 rfl).1⟩

/-- C6, confirmed: with no argument each variant issues one subprocess per
configured toolchain, whose argument list is, in order, the compiler name,
the optimization and target flags, the input source path, the output flag,
the output path, and the link flags (empty for the Rust compiler). -/
theorem C6_compile_command_shape (p d : String) (sysExit : String → Nat) :
    (nbodyC.run p d [] sysExit).commands
      = [joinSpace (["gcc"]
          ++ ["-O3", "-Wall", "-fomit-frame-pointer", "-march=native",
              "-funroll-loops", "-static"]
          ++ [nbodyC.src (p == "win32") d]
          ++ ["-o"]
          ++ [nbodyC.exe (p == "win32") d ++ nbodyC.ext (p == "win32")]
          ++ ["-lm"])] ∧
    (nbodyRs.run p d [] sysExit).commands
      = [joinSpace (["rustc"]
          ++ ["-C", "opt-level=3", "-C", "target-cpu=native", "-C",
              "codegen-units=1"]
          ++ [nbodyRs.src (p == "win32") d]
          ++ ["-o"]
          ++ [nbodyRs.exe (p == "win32") d ++ nbodyRs.ext (p == "win32")]
          ++ ([] : List String))] ∧
    (lrtdw.run p d [] sysExit).commands
      = [joinSpace (["gcc"]
          ++ ["-O3", "-fomit-frame-pointer", "-march=native",
              "-funroll-loops", "-static"]
          ++ [lrtdw.srcC (p == "win32") d]
          ++ ["-o"]
          ++ [lrtdw.exeC (p == "win32") d ++ lrtdw.ext (p == "win32")]
          ++ ["-lm"]),
         joinSpace (["rustc"]
          ++ ["-C", "opt-level=3", "-C", "target-cpu=native", "-C",
              "codegen-units=1"]
          ++ [lrtdw.srcRust (p == "win32") d]
          ++ ["-o"]
          ++ [lrtdw.exeRust (p == "win32") d ++ lrtdw.ext (p == "win32")]
          ++ ([] : List String))] :=
  ⟨rfl, rfl, rfl⟩

/-- C7, counterexample: the claim that no variant rejects a first positional
argument other than clean or time fails for the lrtdw variant: its argument
parser restricts the positional to those two choices, so the token foo is
rejected with the argparse usage-error exit code 2 and no command runs,
while the two nbody variants accept the same token silently. -/
theorem C7_counterexample :
    (lrtdw.run "linux" "/repo" ["foo"] (fun _ => 0)).exitCode = 2 ∧
    (lrtdw.run "linux" "/repo" ["foo"] (fun _ => 0)).commands = [] ∧
    (nbodyC.run "linux" "/repo" ["foo"] (fun _ => 0)).exitCode = 0 ∧
    (nbodyRs.run "linux" "/repo" ["foo"] (fun _ => 0)).exitCode = 0 :=
  ⟨rfl, rfl, rfl, rfl⟩

/-- C7, amended: the two nbody variants perform no input validation, silently
doing nothing and exiting 0 on an unknown first argument, but the lrtdw
variant does validate: any plain first argument other than clean or time is
rejected by its argument parser with exit code 2 and no command is run. -/
theorem C7_input_validation (p d a : String) (sysExit : String → Nat)
    (h1 : a ≠ "time") (h2 : a ≠ "clean")
    (h3 : lrtdw.strStartsWith "-" a = false) :
    (nbodyC.run p d [a] sysExit) = { commands := [], exitCode := 0 } ∧
    (nbodyRs.run p d [a] sysExit) = { commands := [], exitCode := 0 } ∧
    (lrtdw.run p d [a] sysExit) = { commands := [], exitCode := 2 } := by
  have hb1 : (a == "time") = false := beq_eq_false_iff_ne.mpr h1
  have hb2 : (a == "clean") = false := beq_eq_false_iff_ne.mpr h2
  have hf : ∀ t : String, lrtdw.strStartsWith "-" t = true → (a == t) = false := by
    intro t ht
    rw [beq_eq_false_iff_ne]
    intro he
    rw [he, ht] at h3
    exact Bool.noConfusion h3
  refine ⟨?_, ?_, ?_⟩
  · simp [nbodyC.run, hb1, hb2]
  · simp [nbodyRs.run, hb1, hb2]
  · simp [lrtdw.run, lrtdw.parseArgs, lrtdw.parseArgsAux,
      hf "--c_only" rfl, hf "-c" rfl, hf "--rust_only" rfl, hf "-rs" rfl,
      hf "-rust" rfl, h3, hb1, hb2]

/-- C7, witness for the amended theorem at the token bar. -/
theorem C7_input_validation_witness :
    (nbodyC.run "linux" "/repo" ["bar"] (fun _ => 0))
      = { commands := [], exitCode := 0 } ∧
    (nbodyRs.run "linux" "/repo" ["bar"] (fun _ => 0))
      = { commands := [], exitCode := 0 } ∧
    (lrtdw.run "linux" "/repo" ["bar"] (fun _ => 0))
      = { commands := [], exitCode := 2 } :=
  C7_input_validation "linux" "/repo" "bar" (fun _ => 0)
    (by decide) (by decide) rfl

/-- Helper for C8: a path of the form stem plus platform-conditional suffix
carries the Windows executable suffix exactly on the Windows platform,
provided the stem ends in a character different from the last character of
that suffix. -/
theorem hasExeSuffix_stem_iff (p x name : String) (hn : name.data ≠ [])
    (hl : name.data.getLast? ≠ (".exe" : String).data.getLast?) :
    (hasExeSuffix ((x ++ name)
        ++ (if (p == "win32") then ".exe" else "")) ↔ p = "win32") := by
  constructor
  · rintro ⟨b, hb⟩
    by_contra hp
    rw [beq_eq_false_iff_ne.mpr hp] at hb
    rw [show (if (false : Bool) then ".exe" else "") = "" from rfl,
      String.append_empty] at hb
    exact append_ne_append_of_last_ne x name b ".exe" hn (by decide) hl hb
  · intro hp
    subst hp
    exact ⟨x ++ name, rfl⟩

/-- C8, confirmed: for every variant and both toolchains of the combined
variant, the output path passed to the compiler and removed by clean, namely
the output stem plus the platform-conditional suffix, splits off the
Windows executable suffix exactly when the platform is win32, and on every
other platform the suffix is empty so the path is the bare stem. -/
theorem C8_platform_suffix (p d : String) :
    (hasExeSuffix (nbodyC.exe (p == "win32") d ++ nbodyC.ext (p == "win32"))
      ↔ p = "win32") ∧
    (hasExeSuffix (nbodyRs.exe (p == "win32") d ++ nbodyRs.ext (p == "win32"))
      ↔ p = "win32") ∧
    (hasExeSuffix (lrtdw.exeC (p == "win32") d ++ lrtdw.ext (p == "win32"))
      ↔ p = "win32") ∧
    (hasExeSuffix (lrtdw.exeRust (p == "win32") d ++ lrtdw.ext (p == "win32"))
      ↔ p = "win32") ∧
    (p ≠ "win32" →
      nbodyC.exe (p == "win32") d ++ nbodyC.ext (p == "win32")
        = nbodyC.exe (p == "win32") d ∧
      nbodyRs.exe (p == "win32") d ++ nbodyRs.ext (p == "win32")
        = nbodyRs.exe (p == "win32") d ∧
      lrtdw.exeC (p == "win32") d ++ lrtdw.ext (p == "win32")
        = lrtdw.exeC (p == "win32") d ∧
      lrtdw.exeRust (p == "win32") d ++ lrtdw.ext (p == "win32")
        = lrtdw.exeRust (p == "win32") d) := by
  refine ⟨?_, ?_, ?_, ?_, ?_⟩
  · exact hasExeSuffix_stem_iff p (d ++ pathSep (p == "win32")) "nbody-c"
      (by decide) (by decide)
  · exact hasExeSuffix_stem_iff p (d ++ pathSep (p == "win32")) "nbody-rs"
      (by decide) (by decide)
  · exact hasExeSuffix_stem_iff p
      (pathJoin (p == "win32") d lrtdw.subdirC ++ pathSep (p == "win32"))
      "nbody-c" (by decide) (by decide)
  · exact hasExeSuffix_stem_iff p
      (pathJoin (p == "win32") d (lrtdw.subdirRust (p == "win32"))
        ++ pathSep (p == "win32"))
      "nbody-rs" (by decide) (by decide)
  · intro hp
    rw [beq_eq_false_iff_ne.mpr hp]
    exact ⟨String.append_empty _, String.append_empty _,
      String.append_empty _, String.append_empty _⟩

/-- C8, witness: the Windows instance carries the suffix and the posix
instance is the bare stem. -/
theorem C8_platform_suffix_witness :
    hasExeSuffix (nbodyC.exe ("win32" == "win32") "/repo"
      ++ nbodyC.ext ("win32" == "win32")) ∧
    (nbodyC.exe ("linux" == "win32") "/repo" ++ nbodyC.ext ("linux" == "win32")
      = nbodyC.exe ("linux" == "win32") "/repo") :=
  ⟨((C8_platform_suffix "win32" "/repo").1).mpr rfl,
   ((C8_platform_suffix "linux" "/repo").2.2.2.2 (by decide)).1⟩

/-- C9, confirmed: whenever the parsed arguments of the lrtdw script have
both restriction flags set, every rule performs no action: no compile, no
timed compile, and no removal command is passed to os.system. -/
theorem C9_both_flags_disable_all (p d : String) (args : List String)
    (sysExit : String → Nat) (a : lrtdw.Args)
    (hp : lrtdw.parseArgs args = .ok a)
    (hc : a.c_only = true) (hr : a.rust_only = true) :
    (lrtdw.run p d args sysExit).commands = [] := by
  simp only [lrtdw.run, hp]
  simp [lrtdw.dispatch, hc, hr]

/-- C9, witness: the timed rule with both short flags issues no command. -/
theorem C9_both_flags_disable_all_witness :
    (lrtdw.run "linux" "/repo" ["time", "-c", "-rs"] (fun _ => 0)).commands
      = [] :=
  C9_both_flags_disable_all "linux" "/repo" ["time", "-c", "-rs"]
    (fun _ => 0) ⟨some "time", true, true⟩ rfl rfl rfl

/-- C10, confirmed: the command strings each script passes to os.system are
a deterministic function of the command-line arguments, the platform, and
the script directory: two runs agreeing on those three inputs issue
identical commands, whatever statuses the invoked commands return. -/
theorem C10_deterministic_commands (p1 p2 d1 d2 : String)
    (a1 a2 : List String) (s1 s2 : String → Nat)
    (hp : p1 = p2) (hd : d1 = d2) (ha : a1 = a2) :
    (nbodyC.run p1 d1 a1 s1).commands = (nbodyC.run p2 d2 a2 s2).commands ∧
    (nbodyRs.run p1 d1 a1 s1).commands = (nbodyRs.run p2 d2 a2 s2).commands ∧
    (lrtdw.run p1 d1 a1 s1).commands = (lrtdw.run p2 d2 a2 s2).commands := by
  subst hp
  subst hd
  subst ha
  exact ⟨rfl, rfl, rfl⟩

/-- C10, witness: two runs with identical inputs but different subprocess
statuses issue the same commands. -/
theorem C10_deterministic_commands_witness :
    (nbodyC.run "linux" "/repo" ["clean"] (fun _ => 0)).commands
      = (nbodyC.run "linux" "/repo" ["clean"] (fun _ => 7)).commands :=
  (C10_deterministic_commands "linux" "linux" "/repo" "/repo"
    ["clean"] ["clean"] (fun _ => 0) (fun _ => 7) rfl rfl rfl).1

/-- C1, witness for the amended theorem: one concrete run per script, with
an oracle reporting failure status 1 for every command. -/
theorem C1_exit_code_ignored_witness :
    (nbodyC.run "linux" "/repo" [] (fun _ => 1)).exitCode = 0 ∧
    (nbodyRs.run "linux" "/repo" [] (fun _ => 1)).exitCode = 0 ∧
    ((lrtdw.run "linux" "/repo" [] (fun _ => 1)).exitCode = 0 ∨
     (lrtdw.run "linux" "/repo" [] (fun _ => 1)).exitCode = 2) :=
  C1_exit_code_ignored "linux" "/repo" [] (fun _ => 1)

/-- C2, witness for the amended theorem at a concrete invocation. -/
theorem C2_subprocess_count_witness :
    (nbodyC.run "linux" "/repo" [] (fun _ => 0)).commands.length ≤ 1 ∧
    (nbodyRs.run "linux" "/repo" [] (fun _ => 0)).commands.length ≤ 1 ∧
    (lrtdw.run "linux" "/repo" [] (fun _ => 0)).commands.length ≤ 2 :=
  C2_subprocess_count "linux" "/repo" [] (fun _ => 0)

/-- C4, witness for the amended theorem: the concrete removal command lists
of the three clean rules on a posix platform. -/
theorem C4_clean_actions_witness :
    (nbodyC.run "linux" "/repo" ["clean"] (fun _ => 0)).commands
      = ["rm " ++ (nbodyC.exe ("linux" == "win32") "/repo"
          ++ nbodyC.ext ("linux" == "win32"))] ∧
    (nbodyRs.run "linux" "/repo" ["clean"] (fun _ => 0)).commands
      = ["rm " ++ (nbodyRs.exe ("linux" == "win32") "/repo"
          ++ nbodyRs.ext ("linux" == "win32"))
          ++ " " ++ nbodyRs.exe ("linux" == "win32") "/repo" ++ ".pdb"] ∧
    (lrtdw.run "linux" "/repo" ["clean"] (fun _ => 0)).commands
      = ["rm " ++ (lrtdw.exeC ("linux" == "win32") "/repo"
          ++ lrtdw.ext ("linux" == "win32")),
         "rm " ++ (lrtdw.exeRust ("linux" == "win32") "/repo"
          ++ lrtdw.ext ("linux" == "win32"))
          ++ " " ++ lrtdw.exeRust ("linux" == "win32") "/repo" ++ ".pdb"] :=
  ⟨(C4_clean_actions "linux" "/repo" (fun _ => 0)).1,
   (C4_clean_actions "linux" "/repo" (fun _ => 0)).2.1,
   (C4_clean_actions "linux" "/repo" (fun _ => 0)).2.2.1⟩

/-- C6, witness at a concrete invocation on a posix platform. -/
theorem C6_compile_command_shape_witness :
    (nbodyC.run "linux" "/repo" [] (fun _ => 0)).commands
      = [joinSpace (["gcc"]
          ++ ["-O3", "-Wall", "-fomit-frame-pointer", "-march=native",
              "-funroll-loops", "-static"]
          ++ [nbodyC.src ("linux" == "win32") "/repo"]
          ++ ["-o"]
          ++ [nbodyC.exe ("linux" == "win32") "/repo"
              ++ nbodyC.ext ("linux" == "win32")]
          ++ ["-lm"])] :=
  (C6_compile_command_shape "linux" "/repo" (fun _ => 0)).1
